import Mathlib

/-!
Verification development for the Ghefira-Cashflow backend.

The definitions below are a shallow embedding of
`src/controller/transactionController.js` (and its duplicate
`src/unnamed/part_000`): the balance-ledger routes (create, update,
delete), the category find-or-create lookup, the classifier train and
load functions, and the k-fold cross-validation route.

Modelling conventions:
- JavaScript numbers are modelled as integers: every operation the
  claims mention performs only addition, subtraction, negation and
  sign tests, on which integers behave exactly like JS numbers. The
  special value NaN, which the update route can produce by adding an
  undefined patch field to a balance, is modelled by the `none` case
  of `Option Int` (see `jsAdd` and `jsSub`).
- Mongo documents are association lists keyed by a natural-number id;
  `findById` is `List.find?` on the id, `save` replaces the entry with
  the matching id, and ObjectId generation is a `nextId` counter.
- Filesystem operations in the model-store code are modelled as a pure
  record of the primary and backup file contents; filesystem operations
  themselves are assumed not to fail (only content-level failures,
  empty or unparseable files, are modelled, which is what the spec
  claims are about).
-/

namespace Ghefira

/-- Character-wise lower-casing, modelling the JS toLowerCase call on
the strings the controller handles. -/
def lowerStr (s : String) : String :=
  ⟨s.data.map Char.toLower⟩

/-- True when a string is empty or all whitespace: the JS emptiness
check on the trimmed model file content. -/
def isBlank (s : String) : Bool :=
  s.data.all (fun c => c.isWhitespace)

/-- Transaction type enum from the Mongoose schema: income or expense. -/
inductive TxType where
  | income
  | expense
deriving DecidableEq, Repr

/-- Saldo document (src/model/Saldo.js). The amount is a JS number;
`none` models NaN, which can arise in the update route when a patch
omits the amount but supplies the type. -/
structure Saldo where
  id : Nat
  name : String
  amount : Option Int
  description : String
deriving DecidableEq, Repr

/-- Transaction document (src/model/Transaction.js). -/
structure Transaction where
  id : Nat
  user : String
  category : Nat
  saldo : Nat
  amount : Int
  description : String
  type : TxType
deriving DecidableEq, Repr

/-- Category document (the Category model referenced by the controller). -/
structure Category where
  id : Nat
  name : String
  type : TxType
  description : String
deriving DecidableEq, Repr

/-- Update patch: the PUT /:id request body, every field optional. -/
structure Patch where
  category : Option Nat := none
  saldo : Option Nat := none
  amount : Option Int := none
  description : Option String := none
  type : Option TxType := none
deriving DecidableEq, Repr

/-- The persistent stores touched by the transaction routes. -/
structure St where
  saldos : List Saldo
  txs : List Transaction
  cats : List Category
  nextId : Nat
deriving DecidableEq, Repr

/-- Route outcome, abstracting the HTTP responses of the controller. -/
inductive Res where
  | ok
  | validationError
  | notFound (what : String)
  | insufficientBalance
deriving DecidableEq, Repr

/-- JS addition where either side may be NaN (undefined coerces to NaN). -/
def jsAdd : Option Int → Option Int → Option Int
  | some a, some b => some (a + b)
  | _, _ => none

/-- JS subtraction where either side may be NaN. -/
def jsSub : Option Int → Option Int → Option Int
  | some a, some b => some (a - b)
  | _, _ => none

/-- The JS comparison `x < 0`; NaN compares false. -/
def jsLt0 : Option Int → Bool
  | some a => decide (a < 0)
  | none => false

/-- Saldo.findById. -/
def findSaldo (st : St) (sid : Nat) : Option Saldo :=
  st.saldos.find? (fun s => s.id == sid)

/-- Transaction.findById. -/
def findTx (st : St) (txId : Nat) : Option Transaction :=
  st.txs.find? (fun t => t.id == txId)

/-- saldo.save(): writes the in-memory saldo document back to the store. -/
def saveSaldo (st : St) (s : Saldo) : St :=
  { st with saldos := st.saldos.map (fun t => if t.id == s.id then s else t) }

/-- Amount of the stored saldo with the given id (none if absent). -/
def saldoAmount (st : St) (sid : Nat) : Option Int :=
  match findSaldo st sid with
  | some s => s.amount
  | none => none

/-- Case-insensitive character match for the modelled regex fragment:
a dot in the pattern matches any character, any other pattern character
matches case-insensitively. -/
def charMatchCI (p c : Char) : Bool :=
  p == '.' || p.toLower == c.toLower

/-- Anchored case-insensitive regex match over character lists. -/
def regexMatchCI : List Char → List Char → Bool
  | [], [] => true
  | [], _ :: _ => false
  | _ :: _, [] => false
  | p :: ps, c :: cs => charMatchCI p c && regexMatchCI ps cs

/-- Models the JS test `new RegExp("^" ++ pattern ++ "$", "i").test name`
used by Category.findOne in the create-with-prediction route, for the
regex fragment in which the pattern contains only ordinary characters
and the dot metacharacter. -/
def regexTestCI (pattern name : String) : Bool :=
  regexMatchCI pattern.toList name.toList

/-- Find-or-create category from the create-with-prediction route
(transactionController.js lines 576 to 588): Category.findOne with a
case-insensitive anchored regex built from the predicted label, and on
a miss Category.create with the lower-cased label and an auto-generated
description. Returns the category, the category store, and the next id. -/
def findOrCreateCategory (predictedName : String) (ty : TxType)
    (cats : List Category) (nid : Nat) : Category × List Category × Nat :=
  match cats.find? (fun c => regexTestCI predictedName c.name && c.type == ty) with
  | some c => (c, cats, nid)
  | none =>
    let c : Category :=
      ⟨nid, lowerStr predictedName, ty, "Auto-generated category for " ++ predictedName⟩
    (c, cats ++ [c], nid + 1)

/-- Follows the words of claim C6 (a literal, not code-derived,
definition for comparison): lookup by case-insensitive exact string
equality on the name, exact equality on the type, treating the
predicted label as literal text; identical create-on-miss behaviour. -/
def resolveLiteralSpec (predictedName : String) (ty : TxType)
    (cats : List Category) (nid : Nat) : Category × List Category × Nat :=
  match cats.find? (fun c => lowerStr c.name == lowerStr predictedName && c.type == ty) with
  | some c => (c, cats, nid)
  | none =>
    let c : Category :=
      ⟨nid, lowerStr predictedName, ty, "Auto-generated category for " ++ predictedName⟩
    (c, cats ++ [c], nid + 1)

/-- The fastest-validator schema of the create routes restricted to the
fields the embedding keeps: user and description are non-empty strings,
the description at most 1024 characters. -/
def validCreate (user descr : String) : Bool :=
  !(user == "") && !(descr == "") && decide (descr.length ≤ 1024)

/-- Create-with-prediction route POST /models (transactionController.js
lines 540 to 632). The predicted category name is a parameter: the
route obtains it from predictCategory before this logic runs, and no
store touched here depends on how it was produced. -/
def createModels (predictedName user : String) (saldoId : Nat) (amount : Int)
    (descr : String) (ty : TxType) (st : St) : St × Res :=
  if !(validCreate user descr) then (st, .validationError)
  else
    match findSaldo st saldoId with
    | none => (st, .notFound "Saldo not found")
    | some saldo =>
      let fc := findOrCreateCategory predictedName ty st.cats st.nextId
      let stc : St := { st with cats := fc.2.1, nextId := fc.2.2 }
      let newAmount :=
        match ty with
        | .income => jsAdd saldo.amount (some amount)
        | .expense => jsSub saldo.amount (some amount)
      if jsLt0 newAmount && ty == .expense then (stc, .insufficientBalance)
      else
        let st1 := saveSaldo stc { saldo with amount := newAmount }
        let tx : Transaction := ⟨st1.nextId, user, fc.1.id, saldoId, amount, descr, ty⟩
        ({ st1 with txs := st1.txs ++ [tx], nextId := st1.nextId + 1 }, .ok)

/-- Plain create route POST "" (transactionController.js lines 634 to
690): applies the signed effect to the saldo and stores the transaction
with no balance validation of any kind. -/
def createPlain (user : String) (categoryId saldoId : Nat) (amount : Int)
    (descr : String) (ty : TxType) (st : St) : St × Res :=
  if !(validCreate user descr) then (st, .validationError)
  else
    match findSaldo st saldoId with
    | none => (st, .notFound "Saldo not found")
    | some saldo =>
      let newAmount :=
        match ty with
        | .income => jsAdd saldo.amount (some amount)
        | .expense => jsSub saldo.amount (some amount)
      let st1 := saveSaldo st { saldo with amount := newAmount }
      let tx : Transaction := ⟨st1.nextId, user, categoryId, saldoId, amount, descr, ty⟩
      ({ st1 with txs := st1.txs ++ [tx], nextId := st1.nextId + 1 }, .ok)

/-- Validation schema of the update route: only the description rule is
content-bearing in the embedding. -/
def validPatch (p : Patch) : Bool :=
  match p.description with
  | some d => !(d == "") && decide (d.length ≤ 1024)
  | none => true

/-- findByIdAndUpdate: fields present in the request body replace the
stored ones, omitted fields keep their prior values. -/
def applyPatch (tx : Transaction) (p : Patch) : Transaction :=
  { tx with
    category := p.category.getD tx.category
    saldo := p.saldo.getD tx.saldo
    amount := p.amount.getD tx.amount
    description := p.description.getD tx.description
    type := p.type.getD tx.type }

/-- The revert step of the update and delete routes: subtract the old
amount for income, add it back for expense. -/
def revertAmount (saldo : Saldo) (tx : Transaction) : Option Int :=
  match tx.type with
  | .income => jsSub saldo.amount (some tx.amount)
  | .expense => jsAdd saldo.amount (some tx.amount)

/-- The reapply step of the update route, exactly as written: it reads
the type and amount from the request body only. With the type absent,
neither branch fires and the base value is returned unchanged; with the
type present but the amount absent, the JS addition of undefined yields
NaN (the none case of jsAdd and jsSub). -/
def applyNew (base : Option Int) (p : Patch) : Option Int :=
  match p.type with
  | some .income => jsAdd base p.amount
  | some .expense => jsSub base p.amount
  | none => base

/-- Update route PUT /:id (transactionController.js lines 766 to 853).
Loads the transaction and its saldo, reverts the old effect on the
in-memory saldo document, then: if the request body names a different
saldo, loads that saldo, applies the new effect there and saves only
that document (the reverted original is never saved, exactly as in the
source); otherwise applies the new effect to the reverted value and
saves the original saldo. Finally findByIdAndUpdate on the transaction. -/
def updateTransaction (txId : Nat) (p : Patch) (st : St) : St × Res :=
  if !(validPatch p) then (st, .validationError)
  else
    match findTx st txId with
    | none => (st, .notFound "Transaction not found")
    | some tx =>
      match findSaldo st tx.saldo with
      | none => (st, .notFound "Original saldo not found")
      | some saldo =>
        let reverted := revertAmount saldo tx
        let step : Option St :=
          match p.saldo with
          | some nsid =>
            if nsid ≠ tx.saldo then
              match findSaldo st nsid with
              | none => none
              | some ns => some (saveSaldo st { ns with amount := applyNew ns.amount p })
            else some (saveSaldo st { saldo with amount := applyNew reverted p })
          | none => some (saveSaldo st { saldo with amount := applyNew reverted p })
        match step with
        | none => (st, .notFound "New saldo not found")
        | some st1 =>
          let tx2 := applyPatch tx p
          ({ st1 with txs := st1.txs.map (fun t => if t.id == txId then tx2 else t) }, .ok)

/-- Delete route DELETE /:id (transactionController.js lines 859 to
898): loads the transaction and its saldo, applies the inverse of the
create effect with no validation, saves, and removes the transaction. -/
def deleteTransaction (txId : Nat) (st : St) : St × Res :=
  match findTx st txId with
  | none => (st, .notFound "Transaction not found")
  | some tx =>
    match findSaldo st tx.saldo with
    | none => (st, .notFound "Saldo not found")
    | some saldo =>
      let newAmt :=
        match tx.type with
        | .income => jsSub saldo.amount (some tx.amount)
        | .expense => jsAdd saldo.amount (some tx.amount)
      let st1 := saveSaldo st { saldo with amount := newAmt }
      ({ st1 with txs := st1.txs.filter (fun t => !(t.id == txId)) }, .ok)

/-- One committed ledger request, for reasoning about operation
sequences. The predicted category name of the prediction route is part
of the request environment. -/
inductive Op where
  | createModels (predictedName user : String) (saldoId : Nat) (amount : Int)
      (descr : String) (ty : TxType)
  | createPlain (user : String) (categoryId saldoId : Nat) (amount : Int)
      (descr : String) (ty : TxType)
  | update (txId : Nat) (p : Patch)
  | delete (txId : Nat)

/-- Dispatch one operation to the corresponding route. -/
def applyOp : Op → St → St × Res
  | .createModels pn u sid a d ty, st => createModels pn u sid a d ty st
  | .createPlain u cid sid a d ty, st => createPlain u cid sid a d ty st
  | .update txId p, st => updateTransaction txId p st
  | .delete txId, st => deleteTransaction txId st

/-- Signed effect of a transaction on its saldo. -/
def effect (t : Transaction) : Int :=
  match t.type with
  | .income => t.amount
  | .expense => -t.amount

/-- Sum of the signed effects of the stored transactions bound to a saldo. -/
def boundSum (st : St) (sid : Nat) : Int :=
  ((st.txs.filter (fun t => t.saldo == sid)).map effect).sum

/-- The ledger invariant of the spec: every stored saldo amount equals
the sum of the signed effects of the transactions bound to it. -/
def ledgerInvariant (st : St) : Prop :=
  ∀ s ∈ st.saldos, s.amount = some (boundSum st s.id)

instance (st : St) : Decidable (ledgerInvariant st) :=
  inferInstanceAs (Decidable (∀ s ∈ st.saldos, _))

/-- The bayes classifier state, abstracted as the sequence of learn
calls it has received: classifier.learn appends one example, and two
classifiers built from the same learn sequence predict identically. -/
abbrev Model := List (String × String)

/-- A transaction as consumed by training and evaluation: description,
type, and the populated category name (none when the category reference
does not resolve). -/
structure EvalTx where
  description : String
  type : TxType
  categoryName : Option String
deriving DecidableEq, Repr

/-- String form of the transaction type, as interpolated by the JS
template literal. -/
def typeText : TxType → String
  | .income => "income"
  | .expense => "expense"

/-- Input text of a training or test example:
lower(description ++ " " ++ type). -/
def evalText (tx : EvalTx) : String :=
  lowerStr (tx.description ++ " " ++ typeText tx.type)

/-- Label of a training or test example: the populated category name,
with the JS fallback "unknown". -/
def evalLabel (tx : EvalTx) : String :=
  tx.categoryName.getD "unknown"

/-- One training example: classifier.learn inputText categoryName. -/
def mkExample (tx : EvalTx) : String × String :=
  (evalText tx, evalLabel tx)

/-- In-memory classifier service state: the live model, the readiness
flag, and the last training date (time modelled as a natural number). -/
structure ClsState where
  classifier : Model
  isModelReady : Bool
  lastTrainingDate : Option Nat
deriving DecidableEq, Repr

/-- The paging loop of trainClassifier, with explicit fuel: each
iteration consumes at least one transaction, so the total count bounds
the number of fetches; the loop exits when a fetch comes back empty. -/
def trainBatchesAux : Nat → List EvalTx → Model → Model
  | 0, _, cls => cls
  | _ + 1, [], cls => cls
  | fuel + 1, txs, cls =>
    trainBatchesAux fuel (txs.drop 100) (cls ++ (txs.take 100).map mkExample)

/-- The paging loop of trainClassifier: fetch batches of 100
transactions and feed each batch into the classifier until a fetch
comes back empty. -/
def trainBatches (txs : List EvalTx) (cls : Model) : Model :=
  trainBatchesAux txs.length txs cls

/-- trainClassifier (transactionController.js lines 350 to 399): pages
over all transactions, feeding each example into the live classifier
(the process-global bayes instance), then, if at least one example was
seen and persisting succeeded, marks the model ready and records the
training date; on zero examples or a failed save it returns false. The
saveOk flag abstracts the result of saveModel, and now abstracts the
wall clock read by new Date(). -/
def trainClassifier (txs : List EvalTx) (saveOk : Bool) (now : Nat)
    (s : ClsState) : ClsState × Bool :=
  let cls2 := trainBatches txs s.classifier
  if 0 < txs.length then
    if saveOk then
      ({ classifier := cls2, isModelReady := true, lastTrainingDate := some now }, true)
    else ({ s with classifier := cls2 }, false)
  else (s, false)

/-- On-disk model store: contents of the primary and backup model
files, none meaning the file does not exist. -/
structure ModelFS where
  primary : Option String
  backup : Option String
deriving DecidableEq, Repr

/-- The try-block of loadModel (transactionController.js lines 286 to
311): if the primary file exists, require it non-blank and parseable
and load it; if it does not exist, initialise a fresh classifier and
report false. The error case is the thrown exception that the catch
block of loadModel receives. The valid predicate abstracts whether
JSON.parse and bayes.fromJson succeed on the content, and fromJson
abstracts the model they decode. -/
def loadPrimary (valid : String → Bool) (fromJson : String → Model)
    (fs : ModelFS) (s : ClsState) : Except Unit (ModelFS × ClsState × Bool) :=
  match fs.primary with
  | some modelData =>
    if isBlank modelData then .error ()
    else if !(valid modelData) then .error ()
    else .ok (fs, { s with classifier := fromJson modelData, isModelReady := true }, true)
  | none => .ok (fs, { s with classifier := [], isModelReady := false }, false)

/-- The catch-block of loadModel (lines 312 to 344): try the backup
file once; on success adopt the backup model, copy the backup over the
primary and report true; otherwise fall back to a fresh classifier,
delete the primary file if it exists, and report false. -/
def loadCatch (valid : String → Bool) (fromJson : String → Model)
    (fs : ModelFS) (s : ClsState) : ModelFS × ClsState × Bool :=
  match fs.backup with
  | some backupData =>
    if valid backupData then
      ({ fs with primary := some backupData },
       { s with classifier := fromJson backupData, isModelReady := true }, true)
    else ({ fs with primary := none },
          { s with classifier := [], isModelReady := false }, false)
  | none =>
    ({ fs with primary := none },
     { s with classifier := [], isModelReady := false }, false)

/-- loadModel: the try-block, with the catch-block handling any thrown
failure. Total by construction: no exception escapes. -/
def loadModel (valid : String → Bool) (fromJson : String → Model)
    (fs : ModelFS) (s : ClsState) : ModelFS × ClsState × Bool :=
  match loadPrimary valid fromJson fs s with
  | .ok r => r
  | .error _ => loadCatch valid fromJson fs s

deriving instance DecidableEq for Except

/-- The operation surface of the bayes library as used by the
cross-validation route: a fresh instance, incremental learn, and the
best-label query (none models the null prediction). -/
structure BayesOps (C : Type) where
  empty : C
  learn : C → String → String → C
  categorize : C → String → Option String

/-- A degenerate classifier used to instantiate concrete checks: it
learns nothing and always predicts nothing. -/
def constBayes : BayesOps Unit :=
  ⟨(), fun _ _ _ => (), fun _ _ => none⟩

/-- Test slice of fold i: transactions.slice(i*foldSize, (i+1)*foldSize)
with foldSize = floor(n / k). -/
def foldTest (k : Nat) (txs : List EvalTx) (i : Nat) : List EvalTx :=
  (txs.drop (i * (txs.length / k))).take (txs.length / k)

/-- Training data of fold i: everything before the test slice plus
everything after it. -/
def foldTrain (k : Nat) (txs : List EvalTx) (i : Nat) : List EvalTx :=
  txs.take (i * (txs.length / k)) ++ txs.drop ((i + 1) * (txs.length / k))

/-- Per-fold record of the cross-validation route: the 1-based fold
number, the number of correct predictions, and the test sample count.
The route reports accuracy = correct / testSamples; the count pair
carries the same information exactly, and foldAccuracy derives the
rational value (the display rounding to four decimals is presentation
only and is not modelled). -/
structure FoldResult where
  fold : Nat
  correct : Nat
  testSamples : Nat
deriving DecidableEq, Repr

/-- Exact accuracy of one fold. -/
def foldAccuracy (r : FoldResult) : Rat :=
  (r.correct : Rat) / (r.testSamples : Rat)

/-- Response data of the cross-validation route. -/
structure CVResult where
  k : Nat
  folds : List FoldResult
  averageAccuracy : Rat
  totalSamples : Nat
deriving DecidableEq, Repr

/-- Train an ephemeral classifier on a list of transactions. -/
def trainEphemeral {C : Type} (cl : BayesOps C) (txs : List EvalTx) : C :=
  txs.foldl (fun c tx => cl.learn c (evalText tx) (evalLabel tx)) cl.empty

/-- Number of test transactions whose predicted label equals the actual
label (a null prediction never equals the actual string label). -/
def foldCorrect {C : Type} (cl : BayesOps C) (c : C) (testData : List EvalTx) : Nat :=
  (testData.filter (fun tx => cl.categorize c (evalText tx) == some (evalLabel tx))).length

/-- The JS default `req.body.k || 5`: a missing, or falsy (zero), k
becomes 5. -/
def resolveK : Option Nat → Nat
  | none => 5
  | some 0 => 5
  | some k => k

/-- The body of one iteration of the fold loop: train an ephemeral
classifier on everything outside fold i, test on fold i. -/
def cvFold {C : Type} (cl : BayesOps C) (k : Nat) (txs : List EvalTx) (i : Nat) : FoldResult :=
  { fold := i + 1
    correct := foldCorrect cl (trainEphemeral cl (foldTrain k txs i)) (foldTest k txs i)
    testSamples := (foldTest k txs i).length }

/-- POST /cross-validate (transactionController.js lines 178 to 259):
require at least 2k fetched transactions, else the InsufficientData
error response; otherwise build k folds of size floor(n/k), train an
ephemeral classifier on everything outside each fold, test on the fold,
and report the per-fold results and their mean accuracy. -/
def crossValidate {C : Type} (cl : BayesOps C) (k : Nat) (txs : List EvalTx) :
    Except String CVResult :=
  if txs.length < k * 2 then .error "InsufficientData"
  else
    let results := (List.range k).map (cvFold cl k txs)
    let avg := ((results.map foldAccuracy).foldl (fun a b => a + b) 0) / (results.length : Rat)
    .ok { k := k, folds := results, averageAccuracy := avg, totalSamples := txs.length }

/-! Concrete fixtures used by the counterexample and witness checks. -/

/-- Two zero saldos, one seed category, empty transaction store. -/
def stC1 : St :=
  ⟨[⟨0, "A", some 0, "a"⟩, ⟨1, "B", some 0, "b"⟩], [], [⟨5, "groceries", .income, "seed"⟩], 10⟩

/-- State after creating an income transaction of 50 on saldo 0. -/
def stC1b : St := (applyOp (.createPlain "u" 5 0 50 "d" .income) stC1).1

/-- Patch that moves a transaction to saldo 1, keeping type and amount. -/
def patchMove : Patch := { saldo := some 1, amount := some 50, type := some .income }

/-- State after additionally moving the created transaction to saldo 1. -/
def stC1c : St := (applyOp (.update 10 patchMove) stC1b).1

/-- A wallet saldo holding 100. -/
def walletSaldo : Saldo := ⟨0, "Wallet", some 100, "w"⟩

/-- Store with only the wallet saldo. -/
def stC2 : St := ⟨[walletSaldo], [], [], 1⟩

/-- Saldo A holding 100 and saldo B holding 0, with one income
transaction of 50 bound to A. -/
def stC3 : St :=
  ⟨[⟨0, "A", some 100, "a"⟩, ⟨1, "B", some 0, "b"⟩], [⟨3, "u", 5, 0, 50, "d", .income⟩], [], 10⟩

/-- Saldo A holding 150 with one income transaction of 50 bound to it. -/
def stC4 : St :=
  ⟨[⟨0, "A", some 150, "a"⟩], [⟨4, "u", 5, 0, 50, "d", .income⟩], [], 10⟩

/-- Patch that changes only the amount, omitting the type. -/
def patchAmountOnly : Patch := { amount := some 80 }

/-- Wallet holding 100 with one income transaction of 50 bound to it. -/
def stC5 : St :=
  ⟨[⟨0, "W", some 100, "w"⟩], [⟨7, "u", 5, 0, 50, "d", .income⟩], [], 10⟩

/-- Patch that turns the transaction into an expense of 500. -/
def patchBigExpense : Patch := { amount := some 500, type := some .expense }

/-- A category store holding one expense category named abc. -/
def catsC6 : List Category := [⟨0, "abc", .expense, "x"⟩]

/-- A transaction yielding the training example (x income, l). -/
def txC7 : EvalTx := ⟨"x", .income, some "l"⟩

/-- A live classifier that already learned that same example once. -/
def clsC7 : ClsState := ⟨[("x income", "l")], true, some 0⟩

/-- Model store with no primary file and a well-formed backup. -/
def fsC8 : ModelFS := ⟨none, some "backupdata"⟩

/-- A validity predicate accepting every content. -/
def validAll : String → Bool := fun _ => true

/-- A decoder tagging the model with the content it came from. -/
def fromJsonTag : String → Model := fun s => [(s, s)]

/-- A classifier service state before load: empty and not ready. -/
def clsEmpty : ClsState := ⟨[], false, none⟩

/-- Eleven distinct fetched transactions, so that 5-fold validation
leaves one of them outside every fold. -/
def txs11 : List EvalTx :=
  [⟨"t0", .income, some "c"⟩, ⟨"t1", .income, some "c"⟩, ⟨"t2", .income, some "c"⟩,
   ⟨"t3", .income, some "c"⟩, ⟨"t4", .income, some "c"⟩, ⟨"t5", .income, some "c"⟩,
   ⟨"t6", .income, some "c"⟩, ⟨"t7", .income, some "c"⟩, ⟨"t8", .income, some "c"⟩,
   ⟨"t9", .income, some "c"⟩, ⟨"t10", .income, some "c"⟩]

/-- Three fetched transactions: too few for 2-fold validation. -/
def txs3 : List EvalTx :=
  [⟨"t0", .income, some "c"⟩, ⟨"t1", .income, some "c"⟩, ⟨"t2", .income, some "c"⟩]

/-- One income transaction of 100 bound to a wallet holding only 50. -/
def stC10 : St :=
  ⟨[⟨0, "W", some 50, "w"⟩], [⟨2, "u", 5, 0, 100, "d", .income⟩], [], 10⟩

/-- The transaction stored in stC10. -/
def txC10 : Transaction := ⟨2, "u", 5, 0, 100, "d", .income⟩

/-- The saldo stored in stC10. -/
def saldoC10 : Saldo := ⟨0, "W", some 50, "w"⟩

/-! Helper lemmas. -/

/-- Replacing every list entry whose id matches the id of the written
document, then searching for that id, returns the written document,
provided the search previously succeeded. -/
theorem find_save_self (l : List Saldo) (sid : Nat) (s s2 : Saldo)
    (h : l.find? (fun t => t.id == sid) = some s) (hid : s2.id = sid) :
    (l.map (fun t => if t.id == s2.id then s2 else t)).find? (fun t => t.id == sid) = some s2 := by
  induction l with
  | nil => simp at h
  | cons a l ih =>
    by_cases hc : a.id = sid
    · simp [List.find?, hc, hid]
    · have hpa : (a.id == sid) = false := by simp [hc]
      have hhead : (a.id == s2.id) = false := by rw [hid]; exact hpa
      have h2 : l.find? (fun t => t.id == sid) = some s := by
        simpa [List.find?, hpa] using h
      simpa [List.find?, hhead, hpa] using ih h2

/-- Saving a saldo document whose id was found in the store makes any
later findById of that id return the saved document. -/
theorem findSaldo_saveSaldo (st : St) (sid : Nat) (s s2 : Saldo)
    (h : findSaldo st sid = some s) (hid : s2.id = sid) :
    findSaldo (saveSaldo st s2) sid = some s2 :=
  find_save_self st.saldos sid s s2 h hid

/-- The paging loop feeds exactly the examples of all transactions, in
order, into the classifier, provided the fuel covers the list. -/
theorem trainBatchesAux_eq : ∀ (fuel : Nat) (txs : List EvalTx) (cls : Model),
    txs.length ≤ fuel → trainBatchesAux fuel txs cls = cls ++ txs.map mkExample := by
  intro fuel
  induction fuel with
  | zero =>
    intro txs cls h
    have hnil : txs = [] := List.length_eq_zero.mp (Nat.le_zero.mp h)
    subst hnil
    simp [trainBatchesAux]
  | succ n ih =>
    intro txs cls h
    match txs with
    | [] => simp [trainBatchesAux]
    | t :: ts =>
      show trainBatchesAux n ((t :: ts).drop 100) (cls ++ ((t :: ts).take 100).map mkExample) = _
      rw [ih]
      · rw [List.append_assoc, ← List.map_append, List.take_append_drop]
      · simp only [List.length_drop, List.length_cons]
        have hlen : ts.length + 1 ≤ n + 1 := by simpa using h
        omega

/-- The paging loop equals a single pass over all transactions. -/
theorem trainBatches_eq (txs : List EvalTx) (cls : Model) :
    trainBatches txs cls = cls ++ txs.map mkExample :=
  trainBatchesAux_eq txs.length txs cls (Nat.le_refl _)

/-! Claim checks. -/

/-- C1: the claimed invariant (after each committed operation every
saldo amount equals the sum of the signed effects of the transactions
bound to it) is violated by the code. Starting from a store satisfying
the invariant, a committed create followed by a committed update that
moves the transaction to another saldo leaves the original saldo amount
at 50 while the sum of effects bound to it is 0: the update route never
saves the reverted original saldo when the target saldo changes. -/
theorem c1_invariant_violation :
    ledgerInvariant stC1 ∧
    (applyOp (.createPlain "u" 5 0 50 "d" .income) stC1).2 = .ok ∧
    ledgerInvariant stC1b ∧
    (applyOp (.update 10 patchMove) stC1b).2 = .ok ∧
    ¬ ledgerInvariant stC1c ∧
    saldoAmount stC1c 0 = some 50 ∧
    boundSum stC1c 0 = 0 := by decide

/-- C2 (amended): on the create-with-prediction path, an expense whose
computed new amount is negative fails with InsufficientBalance and
leaves the saldo and transaction stores unchanged; the plain creation
path performs no balance validation and commits the debited amount
unconditionally. -/
theorem c2_create_balance_validation :
    (∀ (pn user : String) (sid : Nat) (amount : Int) (descr : String) (st : St) (saldo : Saldo),
      validCreate user descr = true →
      findSaldo st sid = some saldo →
      jsLt0 (jsSub saldo.amount (some amount)) = true →
      (createModels pn user sid amount descr .expense st).2 = .insufficientBalance ∧
      (createModels pn user sid amount descr .expense st).1.saldos = st.saldos ∧
      (createModels pn user sid amount descr .expense st).1.txs = st.txs) ∧
    (∀ (user : String) (cid sid : Nat) (amount : Int) (descr : String) (st : St) (saldo : Saldo),
      validCreate user descr = true →
      findSaldo st sid = some saldo →
      (createPlain user cid sid amount descr .expense st).2 = .ok ∧
      findSaldo (createPlain user cid sid amount descr .expense st).1 sid =
        some { saldo with amount := jsSub saldo.amount (some amount) }) := by
  constructor
  · intro pn user sid amount descr st saldo hv hf hneg
    simp [createModels, hv, hf, hneg]
  · intro user cid sid amount descr st saldo hv hf
    have hid : saldo.id = sid := by
      have := List.find?_some hf
      simpa using this
    constructor
    · simp [createPlain, hv, hf]
    · show findSaldo (createPlain user cid sid amount descr .expense st).1 sid = _
      simp only [createPlain, hv, Bool.not_true, Bool.false_eq_true, if_false, hf]
      exact findSaldo_saveSaldo st sid saldo _ hf hid

/-- C2 witness: the two branches of the amended claim at the concrete
wallet store (amount 100, expense 150). -/
theorem c2_create_balance_validation_witness :
    ((createModels "p" "u" 0 150 "d" .expense stC2).2 = .insufficientBalance ∧
     (createModels "p" "u" 0 150 "d" .expense stC2).1.saldos = stC2.saldos ∧
     (createModels "p" "u" 0 150 "d" .expense stC2).1.txs = stC2.txs) ∧
    ((createPlain "u" 9 0 150 "d" .expense stC2).2 = .ok ∧
     findSaldo (createPlain "u" 9 0 150 "d" .expense stC2).1 0 =
       some { walletSaldo with amount := jsSub walletSaldo.amount (some 150) }) :=
  ⟨c2_create_balance_validation.1 "p" "u" 0 150 "d" stC2 walletSaldo
      (by decide) (by decide) (by decide),
   c2_create_balance_validation.2 "u" 9 0 150 "d" stC2 walletSaldo
      (by decide) (by decide)⟩

/-- C2 counterexample: on the plain creation path an expense of 150
against a saldo holding 100 does not fail with InsufficientBalance: it
commits, drives the stored amount to -50 and stores the transaction,
refuting the claim as stated for every creation path. -/
theorem c2_plain_create_counterexample :
    (createPlain "u" 9 0 150 "d" .expense stC2).2 ≠ .insufficientBalance ∧
    (createPlain "u" 9 0 150 "d" .expense stC2).2 = .ok ∧
    saldoAmount (createPlain "u" 9 0 150 "d" .expense stC2).1 0 = some (-50) ∧
    (createPlain "u" 9 0 150 "d" .expense stC2).1.txs ≠ stC2.txs := by decide

/-- C3: moving a transaction of amount 50 (income) from saldo 0
(holding 100) to saldo 1 commits, applies the new effect on saldo 1,
but leaves saldo 0 stored at 100: the computed reversal (100 - 50) is
never committed because the route only saves the new saldo in that
branch, contradicting the claim that the original saldo afterwards
holds exactly the reversal (50). -/
theorem c3_move_discards_reversal :
    (updateTransaction 3 patchMove stC3).2 = .ok ∧
    saldoAmount (updateTransaction 3 patchMove stC3).1 0 = some 100 ∧
    saldoAmount (updateTransaction 3 patchMove stC3).1 1 = some 50 ∧
    saldoAmount (updateTransaction 3 patchMove stC3).1 0 ≠ some 50 := by decide

/-- C4: updating only the amount (50 to 80) of an income transaction
with the type omitted from the patch commits, and the stored
transaction does retain its prior field values (type income, amount
80), but the balance computation does not default the omitted type to
the original one: the reapplication is skipped entirely, so the saldo
is committed at 100 (reversal only) instead of the claimed 180. -/
theorem c4_omitted_type_skips_reapply :
    (updateTransaction 4 patchAmountOnly stC4).2 = .ok ∧
    findTx (updateTransaction 4 patchAmountOnly stC4).1 4 =
      some ⟨4, "u", 5, 0, 80, "d", .income⟩ ∧
    saldoAmount (updateTransaction 4 patchAmountOnly stC4).1 0 = some 100 ∧
    saldoAmount (updateTransaction 4 patchAmountOnly stC4).1 0 ≠ some 180 := by decide

/-- C5 (amended): the update route performs no non-negative balance
validation: whenever the transaction and its saldo exist and the patch
keeps the same saldo while setting type expense and an amount, the
update commits, writing the reverted-then-debited amount to the saldo
even when the result is negative. -/
theorem c5_update_no_balance_validation (st : St) (txId : Nat) (p : Patch)
    (tx : Transaction) (saldo : Saldo) (a : Int)
    (hv : validPatch p = true)
    (htx : findTx st txId = some tx)
    (hs : findSaldo st tx.saldo = some saldo)
    (hps : p.saldo = none)
    (hpt : p.type = some .expense)
    (hpa : p.amount = some a) :
    (updateTransaction txId p st).2 = .ok ∧
    findSaldo (updateTransaction txId p st).1 tx.saldo =
      some { saldo with amount := jsSub (revertAmount saldo tx) (some a) } := by
  have hid : saldo.id = tx.saldo := by
    have := List.find?_some hs
    simpa using this
  constructor
  · simp [updateTransaction, hv, htx, hs, hps, hpt, hpa, applyNew]
  · show findSaldo (updateTransaction txId p st).1 tx.saldo = _
    simp only [updateTransaction, hv, htx, hs, hps, hpt, hpa, applyNew,
      Bool.not_true, Bool.false_eq_true, if_false]
    exact findSaldo_saveSaldo st tx.saldo saldo _ hs hid

/-- C5 witness: the amended claim applied at the concrete store: wallet
100, income transaction of 50 patched to an expense of 500; the wallet
is committed at -450. -/
theorem c5_update_no_balance_validation_witness :
    (updateTransaction 7 patchBigExpense stC5).2 = .ok ∧
    findSaldo (updateTransaction 7 patchBigExpense stC5).1 0 =
      some { (⟨0, "W", some 100, "w"⟩ : Saldo) with
             amount := jsSub (revertAmount ⟨0, "W", some 100, "w"⟩ ⟨7, "u", 5, 0, 50, "d", .income⟩) (some 500) } :=
  c5_update_no_balance_validation stC5 7 patchBigExpense
    ⟨7, "u", 5, 0, 50, "d", .income⟩ ⟨0, "W", some 100, "w"⟩ 500
    (by decide) (by decide) (by decide) (by decide) (by decide) (by decide)

/-- C5 counterexample: the claim as stated is false: an update turning
an income transaction of 50 into an expense of 500 against a wallet of
100 does not abort: it commits and leaves the wallet stored at -450,
with the store changed. -/
theorem c5_update_commits_negative_counterexample :
    (updateTransaction 7 patchBigExpense stC5).2 = .ok ∧
    saldoAmount (updateTransaction 7 patchBigExpense stC5).1 0 = some (-450) ∧
    (updateTransaction 7 patchBigExpense stC5).1 ≠ stC5 := by decide

/-- C6 (amended): the category lookup interprets the predicted label as
a case-insensitive anchored regular-expression pattern matched against
the stored name, with exact equality on the type: if any stored
category matches in that sense, the store is unchanged and the returned
category is a stored pattern-match; otherwise a category named
lower(label) with the given type and an auto-generated description is
created and appended. -/
theorem c6_category_resolution (label : String) (ty : TxType)
    (cats : List Category) (nid : Nat) :
    ((∃ c ∈ cats, regexTestCI label c.name = true ∧ c.type = ty) →
      (findOrCreateCategory label ty cats nid).2.1 = cats ∧
      (findOrCreateCategory label ty cats nid).1 ∈ cats ∧
      regexTestCI label (findOrCreateCategory label ty cats nid).1.name = true ∧
      (findOrCreateCategory label ty cats nid).1.type = ty) ∧
    ((∀ c ∈ cats, ¬ (regexTestCI label c.name = true ∧ c.type = ty)) →
      findOrCreateCategory label ty cats nid =
        (⟨nid, lowerStr label, ty, "Auto-generated category for " ++ label⟩,
         cats ++ [⟨nid, lowerStr label, ty, "Auto-generated category for " ++ label⟩],
         nid + 1)) := by
  cases hfind : cats.find? (fun c => regexTestCI label c.name && c.type == ty) with
  | none =>
    have hnone := List.find?_eq_none.mp hfind
    constructor
    · rintro ⟨c, hc, hr, hty⟩
      have hfalse := hnone c hc
      simp [hr, hty] at hfalse
    · intro _
      simp [findOrCreateCategory, hfind]
  | some c =>
    have hp := List.find?_some hfind
    have hmem := List.mem_of_find?_eq_some hfind
    have hrt : regexTestCI label c.name = true ∧ c.type = ty := by
      simpa using hp
    constructor
    · intro _
      refine ⟨?_, ?_, ?_, ?_⟩ <;>
        simp [findOrCreateCategory, hfind, hmem, hrt.1, hrt.2]
    · intro hall
      exact absurd hrt (hall c hmem)

/-- C6 witness: the pattern branch of the amended claim at the concrete
store holding the category abc, looked up with the label a.c. -/
theorem c6_category_resolution_witness :
    (findOrCreateCategory "a.c" .expense catsC6 1).2.1 = catsC6 ∧
    (findOrCreateCategory "a.c" .expense catsC6 1).1 ∈ catsC6 ∧
    regexTestCI "a.c" (findOrCreateCategory "a.c" .expense catsC6 1).1.name = true ∧
    (findOrCreateCategory "a.c" .expense catsC6 1).1.type = .expense :=
  (c6_category_resolution "a.c" .expense catsC6 1).1
    ⟨⟨0, "abc", .expense, "x"⟩, by decide, by decide, by decide⟩

/-- C6 counterexample: the label a.c is not treated as literal text:
the code matches the stored category abc (the dot acts as a wildcard)
and returns it with the store unchanged, while the literal
interpretation claimed by the spec would miss (lower(a.c) differs from
abc) and create a new category named a.c. -/
theorem c6_pattern_counterexample :
    (findOrCreateCategory "a.c" .expense catsC6 1).1.name = "abc" ∧
    (findOrCreateCategory "a.c" .expense catsC6 1).2.1 = catsC6 ∧
    (resolveLiteralSpec "a.c" .expense catsC6 1).1.name = "a.c" ∧
    (resolveLiteralSpec "a.c" .expense catsC6 1).2.1 ≠ catsC6 ∧
    lowerStr "a.c" ≠ lowerStr "abc" := by decide

/-- C7 (amended): trainClassifier feeds the training examples into the
existing live classifier, accumulating them onto whatever it already
learned: for every input state the resulting live model is the prior
model extended with the examples of the fetched transactions, not a
freshly built replacement. -/
theorem c7_train_accumulates (txs : List EvalTx) (saveOk : Bool) (now : Nat)
    (s : ClsState) :
    (trainClassifier txs saveOk now s).1.classifier = s.classifier ++ txs.map mkExample := by
  unfold trainClassifier
  by_cases h : 0 < txs.length
  · cases saveOk <;> simp [h, trainBatches_eq]
  · have hnil : txs = [] := by
      cases txs with
      | nil => rfl
      | cons a l => simp at h
    subst hnil
    simp [trainBatches_eq]

/-- C7 counterexample: a successful training run over one transaction,
starting from a live classifier that already learned the same example,
yields a live model holding the example twice: the result differs from
the claimed freshly created instance trained on the examples alone, and
equals the prior live model extended in place. -/
theorem c7_fresh_model_counterexample :
    (trainClassifier [txC7] true 1 clsC7).2 = true ∧
    (trainClassifier [txC7] true 1 clsC7).1.classifier ≠ [txC7].map mkExample ∧
    (trainClassifier [txC7] true 1 clsC7).1.classifier =
      clsC7.classifier ++ [txC7].map mkExample := by decide

/-- C8 (amended): when the primary model file is missing, loadModel
initialises a fresh empty classifier and reports not ready, without
consulting the backup; when the primary exists but is blank or fails to
parse, exactly one fallback to the backup happens: a parseable backup
is adopted and copied over the primary with the service ready, and a
missing or unparseable backup leads to a fresh empty classifier, the
deletion of the corrupt primary, and a not-ready service; loadModel is
total, so no exception escapes it. -/
theorem c8_load_fallback (valid : String → Bool) (fromJson : String → Model)
    (fs : ModelFS) (s : ClsState) :
    (fs.primary = none →
      loadModel valid fromJson fs s =
        (fs, { s with classifier := [], isModelReady := false }, false)) ∧
    (∀ d, fs.primary = some d → isBlank d = false → valid d = true →
      loadModel valid fromJson fs s =
        (fs, { s with classifier := fromJson d, isModelReady := true }, true)) ∧
    (∀ d b, fs.primary = some d → (isBlank d = true ∨ valid d = false) →
      fs.backup = some b → valid b = true →
      loadModel valid fromJson fs s =
        ({ fs with primary := some b },
         { s with classifier := fromJson b, isModelReady := true }, true)) ∧
    (∀ d, fs.primary = some d → (isBlank d = true ∨ valid d = false) →
      (fs.backup = none ∨ ∃ b, fs.backup = some b ∧ valid b = false) →
      loadModel valid fromJson fs s =
        ({ fs with primary := none },
         { s with classifier := [], isModelReady := false }, false)) := by
  have herr : ∀ d, fs.primary = some d → (isBlank d = true ∨ valid d = false) →
      loadPrimary valid fromJson fs s = .error () := by
    intro d hp hbad
    cases hbad with
    | inl h1 => simp [loadPrimary, hp, h1]
    | inr h1 =>
      by_cases h2 : isBlank d = true <;> simp [loadPrimary, hp, h1, h2]
  refine ⟨?_, ?_, ?_, ?_⟩
  · intro h
    simp [loadModel, loadPrimary, h]
  · intro d hp hb hv
    simp [loadModel, loadPrimary, hp, hb, hv]
  · intro d b hp hbad hb hv
    rw [loadModel, herr d hp hbad]
    simp [loadCatch, hb, hv]
  · intro d hp hbad hback
    rw [loadModel, herr d hp hbad]
    cases hback with
    | inl h1 => simp [loadCatch, h1]
    | inr h1 =>
      obtain ⟨b, hb, hbv⟩ := h1
      simp [loadCatch, hb, hbv]

/-- C8 witness: a blank primary with a parseable backup is recovered:
the backup model is adopted, the backup content is copied over the
primary, and the service reports ready. -/
theorem c8_load_fallback_witness :
    loadModel validAll fromJsonTag ⟨some "", some "good"⟩ clsEmpty =
      (⟨some "good", some "good"⟩,
       { clsEmpty with classifier := fromJsonTag "good", isModelReady := true }, true) :=
  (c8_load_fallback validAll fromJsonTag ⟨some "", some "good"⟩ clsEmpty).2.2.1 "" "good"
    rfl (Or.inl (by decide)) rfl (by decide)

/-- C8 counterexample: with the primary file missing and a well-formed
backup present, loadModel does not fall back to the backup: it leaves
the filesystem untouched, initialises an empty not-ready classifier and
reports false, refuting the claimed missing-primary fallback that would
end ready with the backup model and a restored primary. -/
theorem c8_missing_primary_counterexample :
    fsC8.primary = none ∧
    fsC8.backup = some "backupdata" ∧
    validAll "backupdata" = true ∧
    loadModel validAll fromJsonTag fsC8 clsEmpty = (fsC8, clsEmpty, false) ∧
    (loadModel validAll fromJsonTag fsC8 clsEmpty).2.1.isModelReady = false := by decide

/-- C9 (amended): fewer than 2k fetched transactions fail with
InsufficientData; otherwise the route returns k folds, fold i testing
the contiguous slice of length floor(n/k) starting at i*floor(n/k) and
training on the rest of the fetched list; the first k*floor(n/k)
fetched positions each fall in exactly one fold (the remaining n mod k
transactions fall in no fold), and the reported average is the mean of
the per-fold accuracies. -/
theorem c9_crossvalidate_folds {C : Type} (cl : BayesOps C) (k : Nat)
    (txs : List EvalTx) (hk : 0 < k) :
    (txs.length < k * 2 → crossValidate cl k txs = .error "InsufficientData") ∧
    (k * 2 ≤ txs.length →
      ∃ r, crossValidate cl k txs = .ok r ∧
        r.folds.length = k ∧
        (∀ i, i < k → r.folds[i]? = some (cvFold cl k txs i)) ∧
        (∀ i, i < k → (foldTest k txs i).length = txs.length / k) ∧
        (∀ i, i < k → (foldTrain k txs i).length = txs.length - txs.length / k) ∧
        (∀ j, j < k * (txs.length / k) →
          ∃! i, i < k ∧ i * (txs.length / k) ≤ j ∧ j < (i + 1) * (txs.length / k)) ∧
        r.averageAccuracy =
          ((r.folds.map foldAccuracy).foldl (fun a b => a + b) 0) / (k : Rat)) := by
  constructor
  · intro h
    simp [crossValidate, h]
  · intro h
    have hnl : ¬ (txs.length < k * 2) := by omega
    have hlen : ∀ i, i < k → i * (txs.length / k) + txs.length / k ≤ txs.length := by
      intro i hi
      have h1 : (i + 1) * (txs.length / k) ≤ k * (txs.length / k) :=
        Nat.mul_le_mul_right _ hi
      have h2 : k * (txs.length / k) ≤ txs.length := by
        rw [Nat.mul_comm]
        exact Nat.div_mul_le_self txs.length k
      calc i * (txs.length / k) + txs.length / k
          = (i + 1) * (txs.length / k) := by ring
        _ ≤ k * (txs.length / k) := h1
        _ ≤ txs.length := h2
    refine ⟨{ k := k
              folds := (List.range k).map (cvFold cl k txs)
              averageAccuracy :=
                ((((List.range k).map (cvFold cl k txs)).map foldAccuracy).foldl
                  (fun a b => a + b) 0) /
                  ((((List.range k).map (cvFold cl k txs)).length : Nat) : Rat)
              totalSamples := txs.length }, ?_, ?_, ?_, ?_, ?_, ?_, ?_⟩
    · show crossValidate cl k txs = _
      unfold crossValidate
      rw [if_neg hnl]
    · simp
    · intro i hi
      simp [List.getElem?_map, List.getElem?_range, hi]
    · intro i hi
      unfold foldTest
      rw [List.length_take, List.length_drop]
      have key := hlen i hi
      exact Nat.min_eq_left (Nat.le_sub_of_add_le (by omega))
    · intro i hi
      unfold foldTrain
      rw [List.length_append, List.length_take, List.length_drop]
      have key := hlen i hi
      generalize txs.length / k = fs at key ⊢
      have h3 : (i + 1) * fs = i * fs + fs := by ring
      have hmin : min (i * fs) txs.length = i * fs := Nat.min_eq_left (by omega)
      rw [hmin, h3]
      omega
    · intro j hj
      have hfs : 0 < txs.length / k := by
        refine (Nat.le_div_iff_mul_le hk).mpr ?_
        omega
      refine ⟨j / (txs.length / k), ⟨?_, ?_, ?_⟩, ?_⟩
      · exact (Nat.div_lt_iff_lt_mul hfs).mpr hj
      · exact Nat.div_mul_le_self j _
      · have hmod := Nat.mod_lt j hfs
        have hdm := Nat.div_add_mod j (txs.length / k)
        calc j = txs.length / k * (j / (txs.length / k)) + j % (txs.length / k) :=
              hdm.symm
          _ < txs.length / k * (j / (txs.length / k)) + txs.length / k := by omega
          _ = (j / (txs.length / k) + 1) * (txs.length / k) := by ring
      · rintro y ⟨hyk, hy1, hy2⟩
        exact (Nat.div_eq_of_lt_le hy1 hy2).symm
    · simp

/-- C9 witness: the InsufficientData branch of the amended claim at a
concrete store of three transactions and two folds. -/
theorem c9_crossvalidate_folds_witness :
    crossValidate constBayes 2 txs3 = .error "InsufficientData" :=
  (c9_crossvalidate_folds constBayes 2 txs3 (by decide)).1 (by decide)

/-- C9 counterexample: with eleven fetched transactions and five folds
the route succeeds, yet the eleventh fetched transaction belongs to no
fold at all, refuting the claim that every fetched transaction belongs
to exactly one fold. -/
theorem c9_partition_counterexample :
    (crossValidate constBayes 5 txs11).isOk = true ∧
    txs11.length = 11 ∧
    (⟨"t10", .income, some "c"⟩ : EvalTx) ∈ txs11 ∧
    ((List.range 5).filter
      (fun i => decide ((⟨"t10", .income, some "c"⟩ : EvalTx) ∈ foldTest 5 txs11 i))).length
      = 0 := by decide

/-- C10: whenever the transaction and its bound saldo exist, the delete
route commits unconditionally: it returns ok (never InsufficientBalance
or any other error), writes the inverse of the create effect to the
saldo with no non-negativity validation, and removes the transaction;
in particular nothing stops the written amount from being negative when
an income transaction larger than the balance is deleted. -/
theorem c10_delete_always_commits (st : St) (txId : Nat) (tx : Transaction)
    (saldo : Saldo)
    (htx : findTx st txId = some tx)
    (hs : findSaldo st tx.saldo = some saldo) :
    (deleteTransaction txId st).2 = .ok ∧
    findSaldo (deleteTransaction txId st).1 tx.saldo =
      some { saldo with amount :=
        match tx.type with
        | .income => jsSub saldo.amount (some tx.amount)
        | .expense => jsAdd saldo.amount (some tx.amount) } ∧
    (deleteTransaction txId st).1.txs = st.txs.filter (fun t => !(t.id == txId)) := by
  have hid : saldo.id = tx.saldo := by
    have := List.find?_some hs
    simpa using this
  refine ⟨?_, ?_, ?_⟩
  · simp [deleteTransaction, htx, hs]
  · show findSaldo (deleteTransaction txId st).1 tx.saldo = _
    simp only [deleteTransaction, htx, hs]
    exact findSaldo_saveSaldo st tx.saldo saldo _ hs hid
  · simp [deleteTransaction, htx, hs, saveSaldo]

/-- C10 witness: deleting the stored income transaction of 100 bound to
a wallet holding 50 commits and leaves the wallet at -50, a negative
stored amount. -/
theorem c10_delete_always_commits_witness :
    ((deleteTransaction 2 stC10).2 = .ok ∧
     findSaldo (deleteTransaction 2 stC10).1 0 =
       some { saldoC10 with amount := jsSub saldoC10.amount (some 100) } ∧
     (deleteTransaction 2 stC10).1.txs = stC10.txs.filter (fun t => !(t.id == 2))) ∧
    saldoAmount (deleteTransaction 2 stC10).1 0 = some (-50) ∧
    jsLt0 (saldoAmount (deleteTransaction 2 stC10).1 0) = true := by
  refine ⟨?_, by decide, by decide⟩
  have h := c10_delete_always_commits stC10 2 txC10 saldoC10 (by decide) (by decide)
  exact ⟨h.1, h.2.1, h.2.2⟩

end Ghefira
